import Mathlib

/-!
# Verification of the Marzban advanced user-limits subsystem

Shallow embedding of the limit-evaluation and enforcement core:

* `app/db/crud_limits.py` — rule storage, the limit check
  (`check_user_limits`), violation recording, template application;
* `app/jobs/limits_monitor.py` — the background sweep
  (`LimitsMonitor`): usage fetch, per-user checking, enforcement
  actions, notification dispatch, and the polling loop;
* `app/models/limits_db.py` and the migration `b2f3f0a9c2ab_limits.py`
  — the table shapes the embedding's record types mirror.

The database is modelled as plain lists of rows; SQLAlchemy queries
become list filters (row order = insertion order).  Python numbers are
`Int`; the percentage computed by the limit check is modelled in `ℚ`
(exact rational arithmetic for `(current/limit)*100`).  Side effects of
the monitor (violation writes, enforcement calls, notification sends,
log lines, admin reports) are reified as an `Event` list in program
order, and a Python exception that escapes a block is an
`Option PyError` / `Except PyError` value.
-/

/-- A row of the `user_limits` table (`limits_db.UserLimit`, migration
`b2f3f0a9c2ab`).  Only the columns that the modelled code ever reads are
kept: `username`, `limit_type`, `limit_value`, `action`, `enabled`,
`notification_threshold`.  The remaining columns (`webhook_url`,
`webhook_enabled`, `auto_reset_enabled`, `reset_schedule`,
`description`, timestamps, `id`) are metadata never consulted by
`check_user_limits`, `apply_template_to_user` or the monitor. -/
structure UserLimit where
  username : String
  limit_type : String
  limit_value : Int
  action : String
  enabled : Bool
  notification_threshold : ℚ
deriving DecidableEq

/-- One value of the results dict built by `crud_limits.check_user_limits`
(source lines 211–225): keys `'exceeded'`, `'percentage'`, `'action'`,
`'threshold'`, `'should_notify'`.  `action` is `none` in the
not-exceeded branch (Python `None`). -/
structure CheckResult where
  exceeded : Bool
  percentage : ℚ
  action : Option String
  threshold : ℚ
  should_notify : Bool
deriving DecidableEq

/-- `current_usage.get(limit_type, 0)`: dictionary lookup with default 0.
A usage dict is an association list with distinct keys; lookup takes the
first match. -/
def usageGet (current_usage : List (String × Int)) (limit_type : String) : Int :=
  match current_usage with
  | [] => 0
  | (k, v) :: rest => if k = limit_type then v else usageGet rest limit_type

/-- `crud_limits.get_user_limits` (lines 41–43): all `user_limits` rows of
one user, in row order. -/
def get_user_limits (db : List UserLimit) (username : String) : List UserLimit :=
  db.filter (fun r => r.username = username)

/-- `crud_limits.get_user_limit` (lines 46–52): first row matching
username and limit type with `enabled == True`. -/
def get_user_limit (db : List UserLimit) (username limit_type : String) :
    Option UserLimit :=
  (db.filter (fun r => r.username = username ∧ r.limit_type = limit_type ∧
    r.enabled = true)).head?

/-- Remove the first row satisfying `p` (SQLAlchemy `db.delete(row)` of a
row obtained from a query). -/
def removeFirstMatch (p : UserLimit → Bool) : List UserLimit → List UserLimit
  | [] => []
  | r :: rest => if p r then rest else r :: removeFirstMatch p rest

/-- `crud_limits.delete_user_limit` (lines 72–79): look up the user's
*enabled* row of that limit type; if present delete that row and return
`True`, else return `False`.  A disabled row of the same type is not
found and hence not deleted. -/
def delete_user_limit (db : List UserLimit) (username limit_type : String) :
    List UserLimit × Bool :=
  match get_user_limit db username limit_type with
  | some _ =>
      (removeFirstMatch
        (fun r => r.username = username && r.limit_type = limit_type && r.enabled) db,
       true)
  | none => (db, false)

/-- The loop body of `crud_limits.check_user_limits` for one enabled rule
(source lines 203–225).

The source's indentation around line 209 is inconsistent: the
`percentage = (current_value / limit_value) * 100 if limit_value > 0 else 0`
line stands at the indentation level of the `if current_value >= limit_value:`
itself, while both the exceeded branch and the `else` branch reference
`percentage`.  The only reading under which the `else` branch's
`'percentage': percentage` is a bound, current value is the one where the
percentage is computed once, before the comparison; that reading is
embedded here (it is also the one §4.1 of the spec describes). -/
def evaluate_limit (limit : UserLimit) (current_usage : List (String × Int)) :
    CheckResult :=
  let current_value := usageGet current_usage limit.limit_type
  let percentage : ℚ :=
    if limit.limit_value > 0 then
      ((current_value : ℚ) / (limit.limit_value : ℚ)) * 100
    else 0
  if current_value ≥ limit.limit_value then
    { exceeded := true
      percentage := percentage
      action := some limit.action
      threshold := limit.notification_threshold
      should_notify := decide (percentage ≥ limit.notification_threshold * 100) }
  else
    { exceeded := false
      percentage := percentage
      action := none
      threshold := limit.notification_threshold
      should_notify := false }

/-- Python dict assignment `results[limit_type] = v`: overwrite the value
at an existing key in place, else append the new binding. -/
def dictInsert (d : List (String × CheckResult)) (k : String) (v : CheckResult) :
    List (String × CheckResult) :=
  match d with
  | [] => [(k, v)]
  | (k', v') :: rest =>
      if k' = k then (k', v) :: rest else (k', v') :: dictInsert rest k v

/-- Python dict read `results.get(t)`: first (equivalently, unique)
binding of the key. -/
def dictGet (d : List (String × CheckResult)) (t : String) : Option CheckResult :=
  match d with
  | [] => none
  | (k, v) :: rest => if k = t then some v else dictGet rest t

/-- The `for limit in user_limits:` loop of `crud_limits.check_user_limits`
(lines 199–225) with its accumulated results dict: disabled rules are
`continue`d, enabled rules are evaluated and written into the dict. -/
def checkLoop (current_usage : List (String × Int)) :
    List UserLimit → List (String × CheckResult) → List (String × CheckResult)
  | [], results => results
  | limit :: rest, results =>
    if limit.enabled = false then
      checkLoop current_usage rest results
    else
      checkLoop current_usage rest
        (dictInsert results limit.limit_type (evaluate_limit limit current_usage))

/-- `crud_limits.check_user_limits` (lines 194–227): fetch the user's
rules and fold the evaluation loop over them starting from the empty
results dict. -/
def check_user_limits (db : List UserLimit) (username : String)
    (current_usage : List (String × Int)) : List (String × CheckResult) :=
  checkLoop current_usage (get_user_limits db username) []

/-- A row of the `limit_templates` table (`limits_db.LimitTemplate`,
migration `b2f3f0a9c2ab`).  The table's columns are `id`, `name`,
`description`, `is_default`, `is_active`, `created_by` and two
timestamps; only `id` is read by `apply_template_to_user`, `name` is
kept for concreteness.  Crucially there is **no** `rules` column, and
the ORM model declares no `rules` attribute or relationship either. -/
structure DBLimitTemplate where
  id : Nat
  name : String
deriving DecidableEq

/-- A Python exception value, as far as the modelled code distinguishes
exceptions. -/
inductive PyError
  /-- `NameError: name '…' is not defined`. -/
  | nameError (name : String)
  /-- A database error raised by a store write. -/
  | storeError
  /-- `AttributeError` for a missing attribute. -/
  | attributeError (attr : String)
deriving DecidableEq

/-- The `for limit in existing_limits:` deletion loop of
`crud_limits.apply_template_to_user` (lines 177–179): the snapshot of the
user's rows is taken once, then `delete_user_limit` runs per row's
`limit_type`. -/
def deleteUserLimitsLoop (username : String) :
    List String → List UserLimit → List UserLimit
  | [], db => db
  | t :: ts, db => deleteUserLimitsLoop username ts (delete_user_limit db username t).1

/-- `crud_limits.apply_template_to_user` (lines 166–185).

If no template row has the given id the function returns `False`.
Otherwise it snapshots *all* of the user's limit rows (`get_user_limits`,
every limit kind, not only those of the template) and calls
`delete_user_limit` for each row's type, which deletes the user's
*enabled* row of that type.  It then executes `for rule in template.rules:`
— but the `limit_templates` row object has no `rules` attribute (no such
column exists and the ORM model defines none), so this raises
`AttributeError` after the deletions committed and before any insertion;
the `return True` line is unreachable. -/
def apply_template_to_user (templates : List DBLimitTemplate)
    (db : List UserLimit) (username : String) (template_id : Nat) :
    List UserLimit × Except PyError Bool :=
  match templates.find? (fun t => t.id = template_id) with
  | none => (db, Except.ok false)
  | some _template =>
    let existing_limits := get_user_limits db username
    let db1 := deleteUserLimitsLoop username (existing_limits.map (·.limit_type)) db
    (db1, Except.error (PyError.attributeError "rules"))

/-- A row of the `limit_notifications` table (`limits_db.LimitNotification`):
the notification subscriptions the monitor fans a message out to.
`threshold_percentage`, `template_id` and timestamps are never read by the
modelled code and are omitted. -/
structure LimitNotificationRow where
  username : String
  limit_type : String
  notification_type : String
  enabled : Bool
  recipient : String
deriving DecidableEq

/-- Modelled from the spec: `GetSubscriptions(username, limitKind) →
list of NotificationSubscription` (§6).  The monitor calls
`crud.get_limit_notifications(db, username, limit_type)`, whose body is
not under `src/`; the spec describes it as the subscriptions matching the
username and limit kind. -/
def get_limit_notifications (subs : List LimitNotificationRow)
    (username limit_type : String) : List LimitNotificationRow :=
  subs.filter (fun n => n.username = username ∧ n.limit_type = limit_type)

/-- Payload of a dispatched notification, kept structural: the warning
message carries the percentage, the violation message the action taken
(the exact interpolated text of the Python f-strings is not modelled). -/
inductive NotifKind
  | warningMsg (percentage : ℚ)
  | violationMsg (action_taken : Option String)
deriving DecidableEq

/-- One observable side effect of a sweep, in program order. -/
inductive Event
  /-- `create_limit_violation` commit (crud lines 82–104). -/
  | violationWritten (username limit_type : String)
      (current_value limit_value : Int) (action_taken : Option String)
  /-- `crud.update_user(db, username, {"status": …})` — never emitted by
  the modelled code: `disable_user` raises `NameError` first. -/
  | statusUpdated (username status : String)
  /-- `xray.operations.remove_user(username)` — never emitted: both
  `disable_user` and `delete_user` raise `NameError` first. -/
  | xrayUserRemoved (username : String)
  /-- `send_notification(notification_type, recipient, message)` dispatch. -/
  | notifSent (notification_type recipient : String) (kind : NotifKind)
  /-- `logger.error` in `get_current_usage` (line 102). -/
  | logUsageFetchError (username : String)
  /-- `logger.error` in the per-user handler of `check_all_users` (line 59). -/
  | logUserCheckError (username : String)
  /-- `logger.error` in `disable_user` (line 169). -/
  | logDisableError (username : String)
  /-- `logger.error` in `delete_user` (line 187). -/
  | logDeleteError (username : String)
  /-- `logger.info` in `throttle_user` (line 176). -/
  | logThrottleInfo (username limit_type : String)
  /-- `logger.warning` in `handle_limit_exceeded` (lines 148–151). -/
  | logLimitExceeded (username limit_type : String)
      (action_taken : Option String) (current_value : Int)
  /-- `report.user_limit_exceeded` admin report (lines 154–160). -/
  | reportLimitExceeded (username limit_type : String)
      (current_value limit_value : Int) (action_taken : Option String)
deriving DecidableEq

/-- The result of `xray.api.get_user_stats(username)` as read by
`get_current_usage` (lines 85–93): `uptime` and the connection list's
length. -/
structure UserStats where
  uptime : Int
  connections : Nat
deriving DecidableEq

deriving instance DecidableEq for Except

/-- One user of a sweep: the username together with the outcome of the
xray stats query for it — `Except.error ()` models the query raising,
`Except.ok none` a falsy (empty) stats object, `Except.ok (some s)`
valid stats. -/
structure MonUser where
  username : String
  fetch : Except Unit (Option UserStats)
deriving DecidableEq

/-- `LimitsMonitor.get_current_usage` (lines 81–103) together with
`calculate_periodic_usage` (lines 105–113): on an exception from xray it
logs the error and returns the empty dict `{}`; on falsy stats it
returns `{}` without logging; otherwise it builds the usage dict with
`data_limit` and `time_limit` both read from `uptime`, the connection
count, and the periodic kinds hard-coded to 0. -/
def get_current_usage (username : String) (fetch : Except Unit (Option UserStats)) :
    List (String × Int) × List Event :=
  match fetch with
  | Except.error _ => ([], [Event.logUsageFetchError username])
  | Except.ok none => ([], [])
  | Except.ok (some user_stats) =>
      ([("data_limit", user_stats.uptime),
        ("time_limit", user_stats.uptime),
        ("connection_limit", (user_stats.connections : Int)),
        ("daily_limit", 0), ("weekly_limit", 0), ("monthly_limit", 0)],
       [])

/-- `LimitsMonitor.disable_user` (lines 162–169).  The body's first
statement `crud.update_user(db, user.username, {"status": "disabled"})`
references `db`, which is bound nowhere in the method, the class or the
module (`app.db` exports `Session`, `crud`, `get_db` — not `db`), so it
raises `NameError` before any mutation; `xray.operations.remove_user`
is never reached. -/
def disable_user_body (_username : String) : Except PyError (List Event) :=
  Except.error (PyError.nameError "db")

/-- The `try/except` wrapper of `disable_user`: the `NameError` is caught
and logged, so the caller observes only an error log line. -/
def disable_user (username : String) : List Event :=
  match disable_user_body username with
  | Except.ok evs => evs
  | Except.error _ => [Event.logDisableError username]

/-- `LimitsMonitor.delete_user` (lines 180–187): same unbound `db` as
`disable_user`, so `crud.remove_user` raises `NameError` at once. -/
def delete_user_body (_username : String) : Except PyError (List Event) :=
  Except.error (PyError.nameError "db")

/-- The `try/except` wrapper of `delete_user`. -/
def delete_user (username : String) : List Event :=
  match delete_user_body username with
  | Except.ok evs => evs
  | Except.error _ => [Event.logDeleteError username]

/-- `LimitsMonitor.throttle_user` (lines 171–178): the body only logs
("this would require xray configuration changes"). -/
def throttle_user (username limit_type : String) : List Event :=
  [Event.logThrottleInfo username limit_type]

/-- `LimitsMonitor.send_warning_notification` (lines 189–209): for every
subscription of the user and kind, if it is enabled and the result's
percentage has reached `threshold * 100`, dispatch a warning message. -/
def send_warning_notification (subs : List LimitNotificationRow)
    (username limit_type : String) (check_result : CheckResult) : List Event :=
  let percentage := check_result.percentage
  let threshold := check_result.threshold * 100
  ((get_limit_notifications subs username limit_type).filter
      (fun n => n.enabled = true ∧ percentage ≥ threshold)).map
    (fun n => Event.notifSent n.notification_type n.recipient
      (NotifKind.warningMsg percentage))

/-- `LimitsMonitor.send_violation_notification` (lines 211–228): dispatch
the violation message to every enabled subscription of the user and kind. -/
def send_violation_notification (subs : List LimitNotificationRow)
    (username limit_type : String) (action_taken : Option String) : List Event :=
  ((get_limit_notifications subs username limit_type).filter
      (fun n => n.enabled)).map
    (fun n => Event.notifSent n.notification_type n.recipient
      (NotifKind.violationMsg action_taken))

/-- `LimitsMonitor.handle_limit_exceeded` (lines 115–160).

`violation_write_fails username limit_type` says whether the
`create_limit_violation` commit raises a store error for that pair.  The
write is **not** wrapped in any `try/except`, so a failure escapes the
method immediately: no enforcement action and no notification is
attempted (second component `some …`, first component empty).

On a successful write the violation row records
`limit_value = check_result.get('limit_value', 0) = 0`, because the
results dict of `check_user_limits` carries no `'limit_value'` key.
Then the action dispatch by string comparison runs, the violation
notification is sent, and the warning log plus the admin report follow. -/
def handle_limit_exceeded (violation_write_fails : String → String → Bool)
    (subs : List LimitNotificationRow) (username limit_type : String)
    (current_value : Int) (check_result : CheckResult) :
    List Event × Option PyError :=
  let action := check_result.action
  if violation_write_fails username limit_type then
    ([], some PyError.storeError)
  else
    let actionEvs :=
      if action = some "disable" then disable_user username
      else if action = some "throttle" then throttle_user username limit_type
      else if action = some "delete" then delete_user username
      else []
    (Event.violationWritten username limit_type current_value 0 action
       :: actionEvs
       ++ send_violation_notification subs username limit_type action
       ++ [Event.logLimitExceeded username limit_type action current_value,
           Event.reportLimitExceeded username limit_type current_value 0 action],
     none)

/-- The `for limit_type, check_result in limit_checks.items():` loop of
`LimitsMonitor.check_user_limits` (lines 69–79): exceeded results go to
`handle_limit_exceeded` (an exception there aborts the remaining items),
otherwise a result with `should_notify` goes to
`send_warning_notification`. -/
def monitor_check_loop (violation_write_fails : String → String → Bool)
    (subs : List LimitNotificationRow) (username : String)
    (current_usage : List (String × Int)) :
    List (String × CheckResult) → List Event × Option PyError
  | [] => ([], none)
  | (limit_type, check_result) :: rest =>
    if check_result.exceeded then
      match handle_limit_exceeded violation_write_fails subs username limit_type
          (usageGet current_usage limit_type) check_result with
      | (evs, some e) => (evs, some e)
      | (evs, none) =>
        let r := monitor_check_loop violation_write_fails subs username
          current_usage rest
        (evs ++ r.1, r.2)
    else if check_result.should_notify then
      let r := monitor_check_loop violation_write_fails subs username
        current_usage rest
      (send_warning_notification subs username limit_type check_result ++ r.1, r.2)
    else
      monitor_check_loop violation_write_fails subs username current_usage rest

/-- `LimitsMonitor.check_user_limits` (lines 61–79): fetch the usage
(internally catching fetch errors), run the store-level
`check_user_limits`, then dispatch each result. -/
def monitor_check_user_limits (violation_write_fails : String → String → Bool)
    (subs : List LimitNotificationRow) (db : List UserLimit) (user : MonUser) :
    List Event × Option PyError :=
  let fetched := get_current_usage user.username user.fetch
  let limit_checks := check_user_limits db user.username fetched.1
  let r := monitor_check_loop violation_write_fails subs user.username
    fetched.1 limit_checks
  (fetched.2 ++ r.1, r.2)

/-- `LimitsMonitor.check_all_users` (lines 49–59): iterate the users,
each inside `try/except`: an exception from one user's check is logged
(`logger.error`) and the loop proceeds with the next user.  The sweep
itself always returns normally. -/
def check_all_users (violation_write_fails : String → String → Bool)
    (subs : List LimitNotificationRow) (db : List UserLimit) :
    List MonUser → List Event
  | [] => []
  | user :: rest =>
    let r := monitor_check_user_limits violation_write_fails subs db user
    let errLog := match r.2 with
      | some _ => [Event.logUserCheckError user.username]
      | none => []
    r.1 ++ errLog ++ check_all_users violation_write_fails subs db rest

/-- `LimitsMonitor.check_interval` (line 24): 300 seconds. -/
def check_interval : Nat := 300

/-- Control position of the monitor loop (`LimitsMonitor.start`,
lines 28–42), at one-second granularity: `topCheck` is the
`while self.running:` test, `sleeping n` is inside
`await asyncio.sleep(…)` with `n` seconds left, `stopped` is the loop
having exited. -/
inductive Phase
  | topCheck
  | sleeping (remaining : Nat)
  | stopped
deriving DecidableEq

/-- The monitor's state: the `self.running` flag and the loop position. -/
structure MonitorState where
  running : Bool
  phase : Phase
deriving DecidableEq

/-- One second of the loop of `LimitsMonitor.start` (lines 36–42): the
`running` flag is consulted **only** at the `while` test; a sweep then
runs and the interval sleep begins.  `asyncio.sleep` counts down
regardless of the flag — nothing in the source cancels or shortens it —
and only when it ends does control return to the `while` test. -/
def monitor_step (s : MonitorState) : MonitorState :=
  match s.phase with
  | Phase.topCheck =>
      if s.running then { s with phase := Phase.sleeping check_interval }
      else { s with phase := Phase.stopped }
  | Phase.sleeping (n + 1) => { s with phase := Phase.sleeping n }
  | Phase.sleeping 0 => { s with phase := Phase.topCheck }
  | Phase.stopped => s

/-- `LimitsMonitor.stop` (lines 44–47): sets `self.running = False` and
nothing else — it does not interact with the pending sleep. -/
def monitor_stop (s : MonitorState) : MonitorState := { s with running := false }

/-- Run the loop for `n` seconds. -/
def monitor_run (s : MonitorState) : Nat → MonitorState
  | 0 => s
  | n + 1 => monitor_run (monitor_step s) n

/-- Is the event a *warning* notification dispatch
(`send_warning_notification`)? -/
def isWarningNotif : Event → Bool
  | Event.notifSent _ _ (NotifKind.warningMsg _) => true
  | _ => false

/-- Is the event a violation write (`create_limit_violation`)? -/
def isViolationWritten : Event → Bool
  | Event.violationWritten .. => true
  | _ => false

/-- Is the event an observable trace of an enforcement-action attempt
(any event produced inside `disable_user`, `throttle_user`,
`delete_user` or the account-control interface) or of a notification
dispatch? -/
def isEnforcementOrNotif : Event → Bool
  | Event.notifSent .. => true
  | Event.statusUpdated .. => true
  | Event.xrayUserRemoved _ => true
  | Event.logDisableError _ => true
  | Event.logDeleteError _ => true
  | Event.logThrottleInfo .. => true
  | _ => false

/-- Is the event an actual account mutation (`crud.update_user` /
`xray.operations.remove_user`)? -/
def isAccountMutation : Event → Bool
  | Event.statusUpdated .. => true
  | Event.xrayUserRemoved _ => true
  | _ => false

/-! ## Helper lemmas on the results dict and the check loop -/

theorem dictGet_dictInsert_self (d : List (String × CheckResult)) (k : String)
    (v : CheckResult) : dictGet (dictInsert d k v) k = some v := by
  induction d with
  | nil => simp [dictInsert, dictGet]
  | cons p rest ih =>
    obtain ⟨k', v'⟩ := p
    by_cases h : k' = k
    · simp [dictInsert, dictGet, h]
    · simp [dictInsert, dictGet, h, ih]

theorem dictGet_dictInsert_ne (d : List (String × CheckResult)) (k t : String)
    (v : CheckResult) (h : t ≠ k) :
    dictGet (dictInsert d k v) t = dictGet d t := by
  induction d with
  | nil =>
    simp only [dictInsert, dictGet]
    rw [if_neg (fun hh => h hh.symm)]
  | cons p rest ih =>
    obtain ⟨k', v'⟩ := p
    by_cases hk : k' = k
    · subst hk
      simp only [dictInsert, if_pos rfl, dictGet]
      rw [if_neg (fun hh => h hh.symm), if_neg (fun hh => h hh.symm)]
    · simp only [dictInsert, if_neg hk, dictGet]
      by_cases ht : k' = t
      · rw [if_pos ht, if_pos ht]
      · rw [if_neg ht, if_neg ht]
        exact ih

theorem dictGet_mem (d : List (String × CheckResult)) (t : String)
    (res : CheckResult) (h : dictGet d t = some res) : (t, res) ∈ d := by
  induction d with
  | nil => simp [dictGet] at h
  | cons p rest ih =>
    obtain ⟨k, v⟩ := p
    by_cases hk : k = t
    · subst hk
      simp [dictGet] at h
      simp [h]
    · simp [dictGet, hk] at h
      exact List.mem_cons_of_mem _ (ih h)

theorem mem_dictInsert (d : List (String × CheckResult)) (k : String)
    (v : CheckResult) (p : String × CheckResult) (h : p ∈ dictInsert d k v) :
    p = (k, v) ∨ p ∈ d := by
  induction d with
  | nil => simp [dictInsert] at h; simp [h]
  | cons q rest ih =>
    obtain ⟨k', v'⟩ := q
    by_cases hk : k' = k
    · subst hk
      simp only [dictInsert, if_pos rfl] at h
      rcases List.mem_cons.mp h with rfl | hmem
      · exact Or.inl rfl
      · exact Or.inr (List.mem_cons_of_mem _ hmem)
    · simp only [dictInsert, if_neg hk] at h
      rcases List.mem_cons.mp h with rfl | hmem
      · exact Or.inr (List.mem_cons_self _ _)
      · rcases ih hmem with h1 | h2
        · exact Or.inl h1
        · exact Or.inr (List.mem_cons_of_mem _ h2)

theorem checkLoop_dictGet_frame (usage : List (String × Int)) (t : String) :
    ∀ (limits : List UserLimit) (acc : List (String × CheckResult)),
      (∀ l ∈ limits, l.enabled = true → l.limit_type ≠ t) →
      dictGet (checkLoop usage limits acc) t = dictGet acc t := by
  intro limits
  induction limits with
  | nil => intro acc _; rfl
  | cons l rest ih =>
    intro acc h
    by_cases hl : l.enabled = false
    · rw [checkLoop, if_pos hl]
      exact ih acc (fun x hx => h x (List.mem_cons_of_mem _ hx))
    · have hl' : l.enabled = true := by
        cases hb : l.enabled with
        | false => exact absurd hb hl
        | true => rfl
      rw [checkLoop, if_neg hl,
        ih _ (fun x hx => h x (List.mem_cons_of_mem _ hx)),
        dictGet_dictInsert_ne]
      exact fun hh => h l (List.mem_cons_self _ _) hl' hh.symm

theorem checkLoop_dictGet_mem (usage : List (String × Int)) (r : UserLimit) :
    ∀ (limits : List UserLimit) (acc : List (String × CheckResult)),
      ((limits.filter (fun l => l.enabled)).map (fun l => l.limit_type)).Nodup →
      r ∈ limits → r.enabled = true →
      dictGet (checkLoop usage limits acc) r.limit_type =
        some (evaluate_limit r usage) := by
  intro limits
  induction limits with
  | nil => intro acc _ h; exact absurd h (List.not_mem_nil r)
  | cons l rest ih =>
    intro acc hnd hmem hen
    rcases List.mem_cons.mp hmem with rfl | hmem'
    · rw [checkLoop, if_neg (by simp [hen])]
      rw [List.filter_cons_of_pos (by simp [hen]), List.map_cons] at hnd
      have hnotin := (List.nodup_cons.mp hnd).1
      rw [checkLoop_dictGet_frame usage r.limit_type rest _ ?_]
      · exact dictGet_dictInsert_self ..
      · intro x hx hxe hEq
        exact hnotin (by
          rw [← hEq]
          exact List.mem_map_of_mem _ (List.mem_filter.mpr ⟨hx, by simp [hxe]⟩))
    · by_cases hl : l.enabled = false
      · rw [checkLoop, if_pos hl]
        rw [List.filter_cons_of_neg (by simp [hl])] at hnd
        exact ih acc hnd hmem' hen
      · rw [checkLoop, if_neg hl]
        have hl' : l.enabled = true := by
          cases hb : l.enabled with
          | false => exact absurd hb hl
          | true => rfl
        rw [List.filter_cons_of_pos (by simp [hl']), List.map_cons] at hnd
        exact ih _ (List.nodup_cons.mp hnd).2 hmem' hen

theorem checkLoop_mem_sound (usage : List (String × Int)) :
    ∀ (limits : List UserLimit) (acc : List (String × CheckResult))
      (p : String × CheckResult), p ∈ checkLoop usage limits acc →
      (∃ l ∈ limits, l.enabled = true ∧ p.1 = l.limit_type ∧
        p.2 = evaluate_limit l usage) ∨ p ∈ acc := by
  intro limits
  induction limits with
  | nil => intro acc p h; exact Or.inr h
  | cons l rest ih =>
    intro acc p h
    by_cases hl : l.enabled = false
    · rw [checkLoop, if_pos hl] at h
      rcases ih acc p h with ⟨x, hx, hrest⟩ | hacc
      · exact Or.inl ⟨x, List.mem_cons_of_mem _ hx, hrest⟩
      · exact Or.inr hacc
    · have hl' : l.enabled = true := by
        cases hb : l.enabled with
        | false => exact absurd hb hl
        | true => rfl
      rw [checkLoop, if_neg hl] at h
      rcases ih _ p h with ⟨x, hx, hrest⟩ | hacc
      · exact Or.inl ⟨x, List.mem_cons_of_mem _ hx, hrest⟩
      · rcases mem_dictInsert _ _ _ _ hacc with rfl | hmem
        · exact Or.inl ⟨l, List.mem_cons_self _ _, hl', rfl, rfl⟩
        · exact Or.inr hmem

theorem evaluate_limit_not_exceeded (l : UserLimit) (usage : List (String × Int))
    (h : (evaluate_limit l usage).exceeded = false) :
    (evaluate_limit l usage).should_notify = false := by
  unfold evaluate_limit at *
  by_cases hc : usageGet usage l.limit_type ≥ l.limit_value
  · simp [hc] at h
  · simp [hc]

theorem check_result_not_exceeded_not_notify (db : List UserLimit)
    (username : String) (usage : List (String × Int)) (p : String × CheckResult)
    (hp : p ∈ check_user_limits db username usage)
    (hex : p.2.exceeded = false) : p.2.should_notify = false := by
  rcases checkLoop_mem_sound usage _ [] p hp with ⟨l, _, _, _, hres⟩ | habs
  · rw [hres] at hex ⊢
    exact evaluate_limit_not_exceeded l usage hex
  · exact absurd habs (List.not_mem_nil p)

/-! ## Helper lemmas on the monitor loop and the sweep -/

theorem handle_no_warning (wf : String → String → Bool)
    (subs : List LimitNotificationRow) (username limit_type : String)
    (cv : Int) (cr : CheckResult) :
    ∀ ev ∈ (handle_limit_exceeded wf subs username limit_type cv cr).1,
      isWarningNotif ev = false := by
  intro ev hev
  unfold handle_limit_exceeded at hev
  by_cases hw : wf username limit_type = true
  · rw [if_pos hw] at hev
    exact absurd hev (List.not_mem_nil ev)
  · rw [if_neg hw] at hev
    simp only [List.mem_cons, List.mem_append] at hev
    rcases hev with ((rfl | hact) | hnot) | hev
    · rfl
    · by_cases h1 : cr.action = some "disable"
      · simp only [if_pos h1, disable_user, disable_user_body] at hact
        rcases List.mem_singleton.mp hact with rfl
        rfl
      · rw [if_neg h1] at hact
        by_cases h2 : cr.action = some "throttle"
        · simp only [if_pos h2, throttle_user] at hact
          rcases List.mem_singleton.mp hact with rfl
          rfl
        · rw [if_neg h2] at hact
          by_cases h3 : cr.action = some "delete"
          · simp only [if_pos h3, delete_user, delete_user_body] at hact
            rcases List.mem_singleton.mp hact with rfl
            rfl
          · rw [if_neg h3] at hact
            exact absurd hact (List.not_mem_nil ev)
    · unfold send_violation_notification at hnot
      rcases List.mem_map.mp hnot with ⟨n, _, rfl⟩
      rfl
    · rcases hev with rfl | rfl | hev'
      · rfl
      · rfl
      · exact absurd hev' (List.not_mem_nil ev)

theorem monitor_loop_no_warning (wf : String → String → Bool)
    (subs : List LimitNotificationRow) (username : String)
    (cu : List (String × Int)) :
    ∀ entries : List (String × CheckResult),
      (∀ p ∈ entries, p.2.exceeded = false → p.2.should_notify = false) →
      (monitor_check_loop wf subs username cu entries).1.filter isWarningNotif
        = [] := by
  intro entries
  induction entries with
  | nil => intro _; rfl
  | cons p rest ih =>
    intro h
    obtain ⟨k, cr⟩ := p
    by_cases hex : cr.exceeded = true
    · rw [monitor_check_loop, if_pos hex]
      have hhandle := handle_no_warning wf subs username k (usageGet cu k) cr
      rcases hh : handle_limit_exceeded wf subs username k (usageGet cu k) cr
        with ⟨evs, err⟩
      rw [hh] at hhandle
      cases err with
      | some e =>
        simp only []
        rw [List.filter_eq_nil_iff]
        intro ev hev
        simp [hhandle ev hev]
      | none =>
        simp only [List.filter_append]
        rw [List.filter_eq_nil_iff.mpr (fun ev hev => by simp [hhandle ev hev]),
          List.nil_append]
        exact ih (fun q hq => h q (List.mem_cons_of_mem _ hq))
    · have hex' : cr.exceeded = false := by
        cases hb : cr.exceeded with
        | false => rfl
        | true => exact absurd hb hex
      have hsn : cr.should_notify = false := h (k, cr) (List.mem_cons_self _ _) hex'
      rw [monitor_check_loop, if_neg hex, if_neg (by simp [hsn])]
      exact ih (fun q hq => h q (List.mem_cons_of_mem _ hq))

theorem monitor_no_warning (wf : String → String → Bool)
    (subs : List LimitNotificationRow) (db : List UserLimit) (user : MonUser) :
    (monitor_check_user_limits wf subs db user).1.filter isWarningNotif = [] := by
  unfold monitor_check_user_limits
  simp only [List.filter_append]
  rw [monitor_loop_no_warning wf subs user.username _ _
    (fun p hp => check_result_not_exceeded_not_notify db user.username _ p hp),
    List.append_nil]
  rcases user.fetch with _ | h
  · rfl
  · rcases h with _ | s
    · rfl
    · rfl

theorem monitor_loop_skip_all (wf : String → String → Bool)
    (subs : List LimitNotificationRow) (username : String)
    (cu : List (String × Int)) :
    ∀ entries : List (String × CheckResult),
      (∀ p ∈ entries, p.2.exceeded = false ∧ p.2.should_notify = false) →
      monitor_check_loop wf subs username cu entries = ([], none) := by
  intro entries
  induction entries with
  | nil => intro _; rfl
  | cons p rest ih =>
    intro h
    obtain ⟨k, cr⟩ := p
    have h1 : cr.exceeded = false ∧ cr.should_notify = false :=
      h (k, cr) (List.mem_cons_self _ _)
    rw [monitor_check_loop, if_neg (by simp [h1.1]), if_neg (by simp [h1.2])]
    exact ih (fun q hq => h q (List.mem_cons_of_mem _ hq))

theorem handle_all_writes_fail (wf : String → String → Bool)
    (subs : List LimitNotificationRow) (username limit_type : String)
    (cv : Int) (cr : CheckResult) (hw : wf username limit_type = true) :
    handle_limit_exceeded wf subs username limit_type cv cr =
      ([], some PyError.storeError) := by
  unfold handle_limit_exceeded
  rw [if_pos hw]

theorem monitor_loop_writes_fail (wf : String → String → Bool)
    (subs : List LimitNotificationRow) (username : String)
    (cu : List (String × Int)) (hw : ∀ t, wf username t = true) :
    ∀ entries : List (String × CheckResult),
      (∀ p ∈ entries, p.2.exceeded = false → p.2.should_notify = false) →
      (monitor_check_loop wf subs username cu entries).1 = [] ∧
      ∀ ev ∈ (monitor_check_loop wf subs username cu entries).1, False := by
  intro entries
  induction entries with
  | nil =>
    intro _
    exact ⟨rfl, fun ev hev => absurd hev (List.not_mem_nil ev)⟩
  | cons p rest ih =>
    intro h
    obtain ⟨k, cr⟩ := p
    by_cases hex : cr.exceeded = true
    · rw [monitor_check_loop, if_pos hex,
        handle_all_writes_fail wf subs username k (usageGet cu k) cr (hw k)]
      exact ⟨rfl, fun ev hev => absurd hev (List.not_mem_nil ev)⟩
    · have hex' : cr.exceeded = false := by
        cases hb : cr.exceeded with
        | false => rfl
        | true => exact absurd hb hex
      have hsn : cr.should_notify = false :=
        h (k, cr) (List.mem_cons_self _ _) hex'
      rw [monitor_check_loop, if_neg hex, if_neg (by simp [hsn])]
      exact ih (fun q hq => h q (List.mem_cons_of_mem _ hq))

theorem check_all_users_append (wf : String → String → Bool)
    (subs : List LimitNotificationRow) (db : List UserLimit) :
    ∀ us vs : List MonUser,
      check_all_users wf subs db (us ++ vs) =
        check_all_users wf subs db us ++ check_all_users wf subs db vs := by
  intro us vs
  induction us with
  | nil => rfl
  | cons u rest ih =>
    rw [List.cons_append, check_all_users, check_all_users, ih]
    simp [List.append_assoc]

theorem check_all_users_cons (wf : String → String → Bool)
    (subs : List LimitNotificationRow) (db : List UserLimit)
    (u : MonUser) (rest : List MonUser) :
    check_all_users wf subs db (u :: rest) =
      (monitor_check_user_limits wf subs db u).1 ++
      (match (monitor_check_user_limits wf subs db u).2 with
        | some _ => [Event.logUserCheckError u.username]
        | none => []) ++
      check_all_users wf subs db rest := by
  rw [check_all_users, List.append_assoc]

theorem monitor_check_congr (wf : String → String → Bool)
    (subs : List LimitNotificationRow) (dbA dbB : List UserLimit)
    (user : MonUser)
    (h : check_user_limits dbA user.username
        (get_current_usage user.username user.fetch).1 =
      check_user_limits dbB user.username
        (get_current_usage user.username user.fetch).1) :
    monitor_check_user_limits wf subs dbA user =
      monitor_check_user_limits wf subs dbB user := by
  simp only [monitor_check_user_limits]
  rw [h]

theorem checkLoop_skip_disabled (usage : List (String × Int)) (r : UserLimit)
    (hr : r.enabled = false) :
    ∀ (xs ys : List UserLimit) (acc : List (String × CheckResult)),
      checkLoop usage (xs ++ r :: ys) acc = checkLoop usage (xs ++ ys) acc := by
  intro xs
  induction xs with
  | nil =>
    intro ys acc
    rw [List.nil_append, List.nil_append, checkLoop, if_pos hr]
  | cons x rest ih =>
    intro ys acc
    rw [List.cons_append, List.cons_append]
    by_cases hx : x.enabled = false
    · rw [checkLoop, if_pos hx, checkLoop, if_pos hx, ih]
    · rw [checkLoop, if_neg hx, checkLoop, if_neg hx, ih]

theorem check_user_limits_skip_disabled (db1 db2 : List UserLimit)
    (r : UserLimit) (hr : r.enabled = false) (username : String)
    (usage : List (String × Int)) :
    check_user_limits (db1 ++ r :: db2) username usage =
      check_user_limits (db1 ++ db2) username usage := by
  unfold check_user_limits get_user_limits
  rw [List.filter_append, List.filter_append, List.filter_cons]
  by_cases hu : r.username = username
  · rw [if_pos (by simp [hu])]
    exact checkLoop_skip_disabled usage r hr _ _ _
  · rw [if_neg (by simp [hu])]

theorem monitor_run_succ_right (n : Nat) :
    ∀ s : MonitorState, monitor_run s (n + 1) = monitor_step (monitor_run s n) := by
  induction n with
  | zero => intro s; rfl
  | succ m ih =>
    intro s
    rw [monitor_run, ih (monitor_step s)]
    rfl

theorem monitor_run_sleeping (j : Nat) :
    ∀ k : Nat, j ≤ k →
      monitor_run ⟨false, Phase.sleeping k⟩ j =
        ⟨false, Phase.sleeping (k - j)⟩ := by
  induction j with
  | zero => intro k _; rfl
  | succ m ih =>
    intro k hk
    rcases k with _ | k'
    · exact absurd hk (by omega)
    · rw [monitor_run]
      have hstep : monitor_step ⟨false, Phase.sleeping (k' + 1)⟩ =
          ⟨false, Phase.sleeping k'⟩ := rfl
      have harith : k' - m = k' + 1 - (m + 1) := by omega
      rw [hstep, ih k' (by omega), harith]

theorem monitor_run_sleeping_topCheck (k : Nat) :
    monitor_run ⟨false, Phase.sleeping k⟩ (k + 1) = ⟨false, Phase.topCheck⟩ := by
  rw [monitor_run_succ_right, monitor_run_sleeping k k (Nat.le_refl k),
    Nat.sub_self]
  rfl

theorem monitor_run_sleeping_stopped (k : Nat) :
    monitor_run ⟨false, Phase.sleeping k⟩ (k + 2) = ⟨false, Phase.stopped⟩ := by
  rw [monitor_run_succ_right, monitor_run_sleeping_topCheck]
  rfl

theorem evaluate_limit_exceeded_iff (l : UserLimit) (usage : List (String × Int)) :
    (evaluate_limit l usage).exceeded = true ↔
      l.limit_value ≤ usageGet usage l.limit_type := by
  simp only [evaluate_limit]
  by_cases hc : usageGet usage l.limit_type ≥ l.limit_value
  · rw [if_pos hc]
    exact iff_of_true rfl hc
  · rw [if_neg hc]
    exact iff_of_false (by simp) hc

theorem evaluate_limit_percentage_pos (l : UserLimit) (usage : List (String × Int))
    (hpos : 0 < l.limit_value) :
    (evaluate_limit l usage).percentage =
      (usageGet usage l.limit_type : ℚ) / (l.limit_value : ℚ) * 100 := by
  simp only [evaluate_limit]
  by_cases hc : usageGet usage l.limit_type ≥ l.limit_value
  · rw [if_pos hc]
    simp [hpos]
  · rw [if_neg hc]
    simp [hpos]

theorem evaluate_limit_zero_threshold (l : UserLimit) (usage : List (String × Int))
    (hz : l.limit_value = 0) (hnn : 0 ≤ usageGet usage l.limit_type) :
    (evaluate_limit l usage).exceeded = true ∧
    (evaluate_limit l usage).percentage = 0 ∧
    ((evaluate_limit l usage).should_notify = true ↔
      l.notification_threshold ≤ 0) := by
  have hc : usageGet usage l.limit_type ≥ l.limit_value := by
    rw [hz]; exact hnn
  have hng : ¬(l.limit_value > 0) := by omega
  simp only [evaluate_limit]
  rw [if_pos hc]
  refine ⟨rfl, by simp [hng], ?_⟩
  have h100 : ((0 : ℚ) ≥ l.notification_threshold * 100) ↔
      l.notification_threshold ≤ 0 := by
    constructor <;> intro h <;> nlinarith
  simp [hng, h100]

/-- **C1.** For every enabled rule with threshold > 0 and every current
usage value, the limit check (`check_user_limits`) reports the rule's
kind as exceeded iff `currentValue ≥ threshold` (inclusive comparison),
and the percentage it reports equals `currentValue / threshold * 100`
exactly, in exact rational arithmetic.  The `Nodup` hypothesis is the
store's uniqueness constraint `UniqueConstraint('username', 'limit_type')`
on `user_limits` (migration `b2f3f0a9c2ab`), under which the rule's
result is never overwritten by another rule of the same kind. -/
theorem C1_exceeded_iff_threshold_reached (db : List UserLimit)
    (username : String) (usage : List (String × Int)) (r : UserLimit)
    (hmem : r ∈ db) (huser : r.username = username) (hen : r.enabled = true)
    (hpos : 0 < r.limit_value)
    (hnodup : ((get_user_limits db username).map (fun l => l.limit_type)).Nodup) :
    dictGet (check_user_limits db username usage) r.limit_type =
      some (evaluate_limit r usage) ∧
    ((evaluate_limit r usage).exceeded = true ↔
      r.limit_value ≤ usageGet usage r.limit_type) ∧
    (evaluate_limit r usage).percentage =
      (usageGet usage r.limit_type : ℚ) / (r.limit_value : ℚ) * 100 := by
  have hmemf : r ∈ get_user_limits db username :=
    List.mem_filter.mpr ⟨hmem, by simp [huser]⟩
  have hnd2 : (((get_user_limits db username).filter (fun l => l.enabled)).map
      (fun l => l.limit_type)).Nodup :=
    List.Nodup.sublist (List.Sublist.map _ (List.filter_sublist _)) hnodup
  exact ⟨checkLoop_dictGet_mem usage r _ [] hnd2 hmemf hen,
    evaluate_limit_exceeded_iff r usage,
    evaluate_limit_percentage_pos r usage hpos⟩

/-- Witness for C1 at a concrete input: one enabled `data_limit` rule
with threshold 10 and current usage 11. -/
theorem C1_witness :
    (0 : Int) < 10 ∧
    (dictGet (check_user_limits
        [⟨"alice", "data_limit", 10, "notify", true, 1⟩] "alice"
        [("data_limit", 11)]) "data_limit" =
      some (evaluate_limit ⟨"alice", "data_limit", 10, "notify", true, 1⟩
        [("data_limit", 11)]) ∧
    ((evaluate_limit ⟨"alice", "data_limit", 10, "notify", true, 1⟩
        [("data_limit", 11)]).exceeded = true ↔
      (10 : Int) ≤ usageGet [("data_limit", 11)] "data_limit") ∧
    (evaluate_limit ⟨"alice", "data_limit", 10, "notify", true, 1⟩
        [("data_limit", 11)]).percentage =
      (usageGet [("data_limit", 11)] "data_limit" : ℚ) / ((10 : Int) : ℚ) * 100) :=
  ⟨by decide,
   C1_exceeded_iff_threshold_reached
     [⟨"alice", "data_limit", 10, "notify", true, 1⟩] "alice"
     [("data_limit", 11)] ⟨"alice", "data_limit", 10, "notify", true, 1⟩
     (List.mem_singleton.mpr rfl) rfl rfl (by decide) (by decide)⟩

/-- **C10 counterexample.** The claim states that an enabled rule with
`limit_value = 0` is always reported with `should_notify = false`.  For a
rule whose `notification_threshold` is 0 (the column is an unconstrained
nullable float, and the API forwards arbitrary values), the exceeded
branch computes `should_notify = (0 >= 0 * 100) = True`. -/
theorem C10_counterexample :
    dictGet (check_user_limits [⟨"alice", "data_limit", 0, "notify", true, 0⟩]
      "alice" [("data_limit", 5)]) "data_limit" =
      some { exceeded := true, percentage := 0, action := some "notify",
             threshold := 0, should_notify := true } := by
  norm_num [check_user_limits, get_user_limits, checkLoop, evaluate_limit,
    dictInsert, dictGet, usageGet]

/-- **C10 (amended).** For every enabled rule with `limit_value = 0` and
every non-negative current usage value, `check_user_limits` reports the
rule as exceeded with percentage 0, and `should_notify` is true exactly
when the rule's notification fraction is ≤ 0 — so the rule is never
warning-notified by percentage *provided its notification fraction is
positive* (the default 0.8 in particular). -/
theorem C10_zero_threshold_policy (db : List UserLimit) (username : String)
    (usage : List (String × Int)) (r : UserLimit)
    (hmem : r ∈ db) (huser : r.username = username) (hen : r.enabled = true)
    (hz : r.limit_value = 0) (hnn : 0 ≤ usageGet usage r.limit_type)
    (hnodup : ((get_user_limits db username).map (fun l => l.limit_type)).Nodup) :
    dictGet (check_user_limits db username usage) r.limit_type =
      some (evaluate_limit r usage) ∧
    (evaluate_limit r usage).exceeded = true ∧
    (evaluate_limit r usage).percentage = 0 ∧
    ((evaluate_limit r usage).should_notify = true ↔
      r.notification_threshold ≤ 0) := by
  have hmemf : r ∈ get_user_limits db username :=
    List.mem_filter.mpr ⟨hmem, by simp [huser]⟩
  have hnd2 : (((get_user_limits db username).filter (fun l => l.enabled)).map
      (fun l => l.limit_type)).Nodup :=
    List.Nodup.sublist (List.Sublist.map _ (List.filter_sublist _)) hnodup
  obtain ⟨h1, h2, h3⟩ := evaluate_limit_zero_threshold r usage hz hnn
  exact ⟨checkLoop_dictGet_mem usage r _ [] hnd2 hmemf hen, h1, h2, h3⟩

/-- Witness for C10 (amended) at a concrete input: zero threshold,
usage 5, notification fraction 1. -/
theorem C10_witness :
    ((⟨"alice", "data_limit", 0, "notify", true, 1⟩ : UserLimit).limit_value = 0) ∧
    ((0 : Int) ≤ usageGet [("data_limit", 5)] "data_limit") ∧
    (dictGet (check_user_limits
        [⟨"alice", "data_limit", 0, "notify", true, 1⟩] "alice"
        [("data_limit", 5)]) "data_limit" =
      some (evaluate_limit ⟨"alice", "data_limit", 0, "notify", true, 1⟩
        [("data_limit", 5)]) ∧
    (evaluate_limit ⟨"alice", "data_limit", 0, "notify", true, 1⟩
        [("data_limit", 5)]).exceeded = true ∧
    (evaluate_limit ⟨"alice", "data_limit", 0, "notify", true, 1⟩
        [("data_limit", 5)]).percentage = 0 ∧
    ((evaluate_limit ⟨"alice", "data_limit", 0, "notify", true, 1⟩
        [("data_limit", 5)]).should_notify = true ↔
      (⟨"alice", "data_limit", 0, "notify", true, 1⟩ : UserLimit).notification_threshold ≤ 0)) :=
  ⟨rfl, by decide,
   C10_zero_threshold_policy
     [⟨"alice", "data_limit", 0, "notify", true, 1⟩] "alice"
     [("data_limit", 5)] ⟨"alice", "data_limit", 0, "notify", true, 1⟩
     (List.mem_singleton.mpr rfl) rfl rfl rfl (by decide) (by decide)⟩

/-- **C2 counterexample.** A non-exceeded rule at 90% of its threshold
with warning fraction 0.8: the claim says `should_notify` iff
`percentage ≥ warningFraction·100` (here 90 ≥ 80), yet the check reports
`should_notify = false` — the not-exceeded branch of
`check_user_limits` hard-codes `'should_notify': False`
(crud_limits.py line 224). -/
theorem C2_counterexample :
    dictGet (check_user_limits
      [⟨"alice", "data_limit", 10, "notify", true, (8:ℚ)/10⟩] "alice"
      [("data_limit", 9)]) "data_limit" =
      some { exceeded := false, percentage := 90, action := none,
             threshold := (8:ℚ)/10, should_notify := false } ∧
    (90 : ℚ) ≥ (8:ℚ)/10 * 100 := by
  constructor
  · norm_num [check_user_limits, get_user_limits, checkLoop, evaluate_limit,
      dictInsert, dictGet, usageGet]
  · norm_num

/-- **C2 (amended).** For every non-exceeded result the limit check
reports `should_notify = false` unconditionally (the warning-fraction
comparison appears only in the exceeded branch), and consequently a
sweep never dispatches a single warning notification. -/
theorem C2_no_warning_path (db : List UserLimit) (username : String)
    (usage : List (String × Int)) (t : String) (res : CheckResult)
    (wf : String → String → Bool) (subs : List LimitNotificationRow)
    (user : MonUser)
    (h : dictGet (check_user_limits db username usage) t = some res)
    (hex : res.exceeded = false) :
    res.should_notify = false ∧
    (monitor_check_user_limits wf subs db user).1.filter isWarningNotif = [] :=
  ⟨check_result_not_exceeded_not_notify db username usage (t, res)
     (dictGet_mem _ _ _ h) hex,
   monitor_no_warning wf subs db user⟩

/-- Witness for C2 (amended) at a concrete input: a non-exceeded rule
(`-5 < -1`), and a sweep over a user with that rule. -/
theorem C2_witness :
    (dictGet (check_user_limits
        [⟨"alice", "data_limit", -1, "notify", true, 1⟩] "alice"
        [("data_limit", -5)]) "data_limit" =
      some { exceeded := false, percentage := 0, action := none,
             threshold := 1, should_notify := false }) ∧
    (({ exceeded := false, percentage := 0, action := none,
        threshold := 1, should_notify := false } : CheckResult).exceeded = false) ∧
    (({ exceeded := false, percentage := 0, action := none,
        threshold := 1, should_notify := false } : CheckResult).should_notify = false ∧
     (monitor_check_user_limits (fun _ _ => false) []
        [⟨"alice", "data_limit", -1, "notify", true, 1⟩]
        ⟨"alice", Except.ok none⟩).1.filter isWarningNotif = []) :=
  ⟨by decide, rfl,
   C2_no_warning_path [⟨"alice", "data_limit", -1, "notify", true, 1⟩] "alice"
     [("data_limit", -5)] "data_limit"
     { exceeded := false, percentage := 0, action := none,
       threshold := 1, should_notify := false }
     (fun _ _ => false) [] ⟨"alice", Except.ok none⟩ (by decide) rfl⟩

/-- **C9.** A disabled rule is skipped entirely: deleting it from the
store changes neither the check results nor any effect of the sweep —
the evaluator is never invoked for it and no violation, enforcement or
notification can originate from it, for any usage value. -/
theorem C9_disabled_rules_skipped (db1 db2 : List UserLimit) (r : UserLimit)
    (hr : r.enabled = false) (username : String) (usage : List (String × Int))
    (wf : String → String → Bool) (subs : List LimitNotificationRow)
    (user : MonUser) (users : List MonUser) :
    check_user_limits (db1 ++ r :: db2) username usage =
      check_user_limits (db1 ++ db2) username usage ∧
    monitor_check_user_limits wf subs (db1 ++ r :: db2) user =
      monitor_check_user_limits wf subs (db1 ++ db2) user ∧
    check_all_users wf subs (db1 ++ r :: db2) users =
      check_all_users wf subs (db1 ++ db2) users := by
  have hc : ∀ (u : String) (cu : List (String × Int)),
      check_user_limits (db1 ++ r :: db2) u cu =
        check_user_limits (db1 ++ db2) u cu :=
    fun u cu => check_user_limits_skip_disabled db1 db2 r hr u cu
  have hm : ∀ u : MonUser,
      monitor_check_user_limits wf subs (db1 ++ r :: db2) u =
        monitor_check_user_limits wf subs (db1 ++ db2) u :=
    fun u => monitor_check_congr wf subs _ _ u (hc _ _)
  refine ⟨hc username usage, hm user, ?_⟩
  induction users with
  | nil => rfl
  | cons u rest ih => rw [check_all_users, check_all_users, hm u, ih]

/-- Witness for C9 at a concrete input: a single disabled rule. -/
theorem C9_witness :
    ((⟨"alice", "data_limit", 0, "notify", false, 1⟩ : UserLimit).enabled = false) ∧
    (check_user_limits [⟨"alice", "data_limit", 0, "notify", false, 1⟩]
        "alice" [("data_limit", 5)] =
      check_user_limits [] "alice" [("data_limit", 5)] ∧
    monitor_check_user_limits (fun _ _ => false) []
        [⟨"alice", "data_limit", 0, "notify", false, 1⟩]
        ⟨"alice", Except.ok none⟩ =
      monitor_check_user_limits (fun _ _ => false) [] []
        ⟨"alice", Except.ok none⟩ ∧
    check_all_users (fun _ _ => false) []
        [⟨"alice", "data_limit", 0, "notify", false, 1⟩]
        [⟨"alice", Except.ok none⟩] =
      check_all_users (fun _ _ => false) [] [] [⟨"alice", Except.ok none⟩]) :=
  ⟨rfl,
   C9_disabled_rules_skipped [] [] ⟨"alice", "data_limit", 0, "notify", false, 1⟩
     rfl "alice" [("data_limit", 5)] (fun _ _ => false) []
     ⟨"alice", Except.ok none⟩ [⟨"alice", Except.ok none⟩]⟩

theorem evaluate_limit_empty_pos (l : UserLimit) (hpos : 0 < l.limit_value) :
    (evaluate_limit l []).exceeded = false ∧
    (evaluate_limit l []).should_notify = false := by
  have hc : ¬(usageGet [] l.limit_type ≥ l.limit_value) := by
    simp only [usageGet]
    omega
  simp only [evaluate_limit]
  rw [if_neg hc]
  exact ⟨rfl, rfl⟩

theorem monitor_fetch_error (wf : String → String → Bool)
    (subs : List LimitNotificationRow) (db : List UserLimit) (user : MonUser)
    (hf : user.fetch = Except.error ())
    (hpos : ∀ r ∈ get_user_limits db user.username,
      r.enabled = true → 0 < r.limit_value) :
    monitor_check_user_limits wf subs db user =
      ([Event.logUsageFetchError user.username], none) := by
  have hent : ∀ p ∈ check_user_limits db user.username [],
      p.2.exceeded = false ∧ p.2.should_notify = false := by
    intro p hp
    rcases checkLoop_mem_sound [] (get_user_limits db user.username) [] p hp with
      ⟨l, hl, hle, _, hres⟩ | habs
    · rw [hres]
      exact evaluate_limit_empty_pos l (hpos l hl hle)
    · exact absurd habs (List.not_mem_nil p)
  simp only [monitor_check_user_limits, hf, get_current_usage]
  rw [monitor_loop_skip_all wf subs user.username [] _ hent]
  rfl

/-- **C3 counterexample.** A user whose usage fetch raises is *not*
skipped: `get_current_usage` swallows the exception and returns `{}`
(limits_monitor.py lines 101–103), the rules then run against zero
usage, and an enabled rule with `limit_value = 0` still produces a
violation write — contradicting "no Violation is written and no
enforcement or notification occurs for that user". -/
theorem C3_counterexample :
    (monitor_check_user_limits (fun _ _ => false) []
      [⟨"alice", "data_limit", 0, "notify", true, 1⟩]
      ⟨"alice", Except.error ()⟩).1.filter isViolationWritten =
      [Event.violationWritten "alice" "data_limit" 0 0 (some "notify")] := by
  norm_num [monitor_check_user_limits, get_current_usage, check_user_limits,
    get_user_limits, checkLoop, evaluate_limit, dictInsert, monitor_check_loop,
    handle_limit_exceeded, disable_user, disable_user_body, throttle_user,
    delete_user, delete_user_body, send_violation_notification,
    get_limit_notifications, usageGet, isViolationWritten, List.filter]

/-- **C3 (amended).** On a usage-fetch failure the monitor logs the
failure and then still evaluates the user's rules — against the empty
usage mapping, in which every kind counts as 0.  When every enabled rule
of the user has a positive threshold this yields no violation, no
enforcement and no notification (only the fetch-error log), and the
remaining users of the sweep are processed normally; but the user is not
"skipped entirely" (see the counterexample for a zero-threshold rule). -/
theorem C3_fetch_failure_effects (wf : String → String → Bool)
    (subs : List LimitNotificationRow) (db : List UserLimit) (user : MonUser)
    (us vs : List MonUser)
    (hf : user.fetch = Except.error ())
    (hpos : ∀ r ∈ get_user_limits db user.username,
      r.enabled = true → 0 < r.limit_value) :
    monitor_check_user_limits wf subs db user =
      ([Event.logUsageFetchError user.username], none) ∧
    check_all_users wf subs db (us ++ user :: vs) =
      check_all_users wf subs db us ++
        Event.logUsageFetchError user.username ::
        check_all_users wf subs db vs := by
  have hm := monitor_fetch_error wf subs db user hf hpos
  refine ⟨hm, ?_⟩
  rw [check_all_users_append, check_all_users, hm]
  rfl

/-- Witness for C3 (amended) at a concrete input: a failing fetch for a
user with one positive-threshold rule, between two other users. -/
theorem C3_witness :
    ((⟨"alice", Except.error ()⟩ : MonUser).fetch = Except.error ()) ∧
    (monitor_check_user_limits (fun _ _ => false) []
        [⟨"alice", "data_limit", 10, "notify", true, 1⟩]
        ⟨"alice", Except.error ()⟩ =
      ([Event.logUsageFetchError "alice"], none) ∧
    check_all_users (fun _ _ => false) []
        [⟨"alice", "data_limit", 10, "notify", true, 1⟩]
        ([⟨"bob", Except.ok none⟩] ++ ⟨"alice", Except.error ()⟩ ::
          [⟨"carol", Except.ok none⟩]) =
      check_all_users (fun _ _ => false) []
        [⟨"alice", "data_limit", 10, "notify", true, 1⟩]
        [⟨"bob", Except.ok none⟩] ++
        Event.logUsageFetchError "alice" ::
        check_all_users (fun _ _ => false) []
          [⟨"alice", "data_limit", 10, "notify", true, 1⟩]
          [⟨"carol", Except.ok none⟩]) :=
  ⟨rfl,
   C3_fetch_failure_effects (fun _ _ => false) []
     [⟨"alice", "data_limit", 10, "notify", true, 1⟩]
     ⟨"alice", Except.error ()⟩
     [⟨"bob", Except.ok none⟩] [⟨"carol", Except.ok none⟩]
     rfl (by decide)⟩

/-- **C4 counterexample.** One user, one exceeded `disable` rule, an
enabled e-mail subscription, and a violation write that fails: the
sweep's only event is the per-user error log — no enforcement attempt
and no notification happens, contradicting "enforcement and notification
are still attempted". -/
theorem C4_counterexample :
    check_all_users (fun _ _ => true)
      [⟨"alice", "data_limit", "email", true, "admin@example.com"⟩]
      [⟨"alice", "data_limit", 10, "disable", true, 1⟩]
      [⟨"alice", Except.ok (some ⟨11, 0⟩)⟩] =
      [Event.logUserCheckError "alice"] ∧
    (monitor_check_user_limits (fun _ _ => true)
      [⟨"alice", "data_limit", "email", true, "admin@example.com"⟩]
      [⟨"alice", "data_limit", 10, "disable", true, 1⟩]
      ⟨"alice", Except.ok (some ⟨11, 0⟩)⟩).2 = some PyError.storeError := by
  constructor <;>
    norm_num [check_all_users, monitor_check_user_limits, get_current_usage,
      check_user_limits, get_user_limits, checkLoop, evaluate_limit, dictInsert,
      monitor_check_loop, handle_limit_exceeded, usageGet]

/-- **C4 (amended).** A failing violation write raises out of
`handle_limit_exceeded` (the write is not guarded by any `try/except`),
so enforcement and notification are *not* attempted for that rule: when
every violation write for the user fails, the user's sweep step produces
no enforcement-or-notification event and no violation event at all; the
failure is caught by the per-user handler of `check_all_users`, logged,
and the sweep continues with the remaining users. -/
theorem C4_write_failure_blocks_enforcement (wf : String → String → Bool)
    (subs : List LimitNotificationRow) (db : List UserLimit) (user : MonUser)
    (us vs : List MonUser)
    (hw : ∀ t, wf user.username t = true) :
    (monitor_check_user_limits wf subs db user).1.filter isEnforcementOrNotif
      = [] ∧
    (monitor_check_user_limits wf subs db user).1.filter isViolationWritten
      = [] ∧
    check_all_users wf subs db (us ++ user :: vs) =
      check_all_users wf subs db us ++
      ((monitor_check_user_limits wf subs db user).1 ++
        (match (monitor_check_user_limits wf subs db user).2 with
          | some _ => [Event.logUserCheckError user.username]
          | none => [])) ++
      check_all_users wf subs db vs := by
  have hloop := monitor_loop_writes_fail wf subs user.username
    (get_current_usage user.username user.fetch).1 hw
    (check_user_limits db user.username (get_current_usage user.username user.fetch).1)
    (fun p hp => check_result_not_exceeded_not_notify db user.username _ p hp)
  have hm1 : (monitor_check_user_limits wf subs db user).1 =
      (get_current_usage user.username user.fetch).2 := by
    simp only [monitor_check_user_limits]
    rw [hloop.1, List.append_nil]
  have hfetch2 :
      ((get_current_usage user.username user.fetch).2.filter isEnforcementOrNotif
        = []) ∧
      ((get_current_usage user.username user.fetch).2.filter isViolationWritten
        = []) := by
    rcases user.fetch with e | o
    · simp [get_current_usage, isEnforcementOrNotif, isViolationWritten]
    · rcases o with _ | s <;> simp [get_current_usage]
  refine ⟨by rw [hm1]; exact hfetch2.1, by rw [hm1]; exact hfetch2.2, ?_⟩
  rw [check_all_users_append, check_all_users]
  simp [List.append_assoc]

/-- Witness for C4 (amended) at a concrete input: every write fails,
one exceeded rule, one enabled subscription, one following user. -/
theorem C4_witness :
    (∀ t : String, (fun _ _ => true : String → String → Bool) "alice" t = true) ∧
    ((monitor_check_user_limits (fun _ _ => true)
        [⟨"alice", "data_limit", "email", true, "admin@example.com"⟩]
        [⟨"alice", "data_limit", 10, "disable", true, 1⟩]
        ⟨"alice", Except.ok (some ⟨11, 0⟩)⟩).1.filter isEnforcementOrNotif = [] ∧
    (monitor_check_user_limits (fun _ _ => true)
        [⟨"alice", "data_limit", "email", true, "admin@example.com"⟩]
        [⟨"alice", "data_limit", 10, "disable", true, 1⟩]
        ⟨"alice", Except.ok (some ⟨11, 0⟩)⟩).1.filter isViolationWritten = [] ∧
    check_all_users (fun _ _ => true)
        [⟨"alice", "data_limit", "email", true, "admin@example.com"⟩]
        [⟨"alice", "data_limit", 10, "disable", true, 1⟩]
        ([] ++ ⟨"alice", Except.ok (some ⟨11, 0⟩)⟩ ::
          [⟨"bob", Except.ok none⟩]) =
      check_all_users (fun _ _ => true)
        [⟨"alice", "data_limit", "email", true, "admin@example.com"⟩]
        [⟨"alice", "data_limit", 10, "disable", true, 1⟩] [] ++
      ((monitor_check_user_limits (fun _ _ => true)
          [⟨"alice", "data_limit", "email", true, "admin@example.com"⟩]
          [⟨"alice", "data_limit", 10, "disable", true, 1⟩]
          ⟨"alice", Except.ok (some ⟨11, 0⟩)⟩).1 ++
        (match (monitor_check_user_limits (fun _ _ => true)
            [⟨"alice", "data_limit", "email", true, "admin@example.com"⟩]
            [⟨"alice", "data_limit", 10, "disable", true, 1⟩]
            ⟨"alice", Except.ok (some ⟨11, 0⟩)⟩).2 with
          | some _ => [Event.logUserCheckError "alice"]
          | none => [])) ++
      check_all_users (fun _ _ => true)
        [⟨"alice", "data_limit", "email", true, "admin@example.com"⟩]
        [⟨"alice", "data_limit", 10, "disable", true, 1⟩]
        [⟨"bob", Except.ok none⟩]) :=
  ⟨fun _ => rfl,
   C4_write_failure_blocks_enforcement (fun _ _ => true)
     [⟨"alice", "data_limit", "email", true, "admin@example.com"⟩]
     [⟨"alice", "data_limit", 10, "disable", true, 1⟩]
     ⟨"alice", Except.ok (some ⟨11, 0⟩)⟩
     [] [⟨"bob", Except.ok none⟩] (fun _ => rfl)⟩

/-- **C5.** An exception while processing one username is caught by the
per-user `try/except` of `check_all_users` and logged, and the sweep
proceeds with every remaining username: the sweep over `us ++ u :: vs`
is the sweep over `us`, then `u`'s partial events and the per-user error
log, then the sweep over `vs`; the sweep function itself always returns
normally (it is total). -/
theorem C5_per_user_isolation (wf : String → String → Bool)
    (subs : List LimitNotificationRow) (db : List UserLimit)
    (user : MonUser) (us vs : List MonUser) (e : PyError)
    (herr : (monitor_check_user_limits wf subs db user).2 = some e) :
    check_all_users wf subs db (us ++ user :: vs) =
      check_all_users wf subs db us ++
      (monitor_check_user_limits wf subs db user).1 ++
      [Event.logUserCheckError user.username] ++
      check_all_users wf subs db vs := by
  rw [check_all_users_append, check_all_users]
  simp [herr, List.append_assoc]

/-- Witness for C5 at a concrete input: the middle user's violation
write raises a store error; the two surrounding users are processed
normally. -/
theorem C5_witness :
    ((monitor_check_user_limits (fun _ _ => true) []
        [⟨"bob", "data_limit", 10, "notify", true, 1⟩]
        ⟨"bob", Except.ok (some ⟨20, 0⟩)⟩).2 = some PyError.storeError) ∧
    check_all_users (fun _ _ => true) []
        [⟨"bob", "data_limit", 10, "notify", true, 1⟩]
        ([⟨"carol", Except.ok none⟩] ++ ⟨"bob", Except.ok (some ⟨20, 0⟩)⟩ ::
          [⟨"dave", Except.ok none⟩]) =
      check_all_users (fun _ _ => true) []
          [⟨"bob", "data_limit", 10, "notify", true, 1⟩]
          [⟨"carol", Except.ok none⟩] ++
        (monitor_check_user_limits (fun _ _ => true) []
          [⟨"bob", "data_limit", 10, "notify", true, 1⟩]
          ⟨"bob", Except.ok (some ⟨20, 0⟩)⟩).1 ++
        [Event.logUserCheckError "bob"] ++
        check_all_users (fun _ _ => true) []
          [⟨"bob", "data_limit", 10, "notify", true, 1⟩]
          [⟨"dave", Except.ok none⟩] :=
  ⟨by norm_num [monitor_check_user_limits, get_current_usage, check_user_limits,
      get_user_limits, checkLoop, evaluate_limit, dictInsert, monitor_check_loop,
      handle_limit_exceeded, usageGet],
   C5_per_user_isolation (fun _ _ => true) []
     [⟨"bob", "data_limit", 10, "notify", true, 1⟩]
     ⟨"bob", Except.ok (some ⟨20, 0⟩)⟩
     [⟨"carol", Except.ok none⟩] [⟨"dave", Except.ok none⟩] PyError.storeError
     (by norm_num [monitor_check_user_limits, get_current_usage, check_user_limits,
       get_user_limits, checkLoop, evaluate_limit, dictInsert, monitor_check_loop,
       handle_limit_exceeded, usageGet])⟩

/-- **C6 (code bug).** `apply_template_to_user` does not replace-by-kind.
Concretely: user `alice` has one enabled `speed_limit` rule; the stored
template (as every `limit_templates` row) contains no rules at all, so
`speed_limit` is a kind "not present in the template" and the claim says
the rule must be left unchanged.  Instead the deletion loop removes
*every* enabled rule of the user regardless of kind, and the subsequent
`for rule in template.rules:` raises `AttributeError` — the table has no
`rules` column and the ORM model no `rules` attribute — so nothing is
inserted and the user is left with no rules at all. -/
theorem C6_apply_template_deletes_all_and_raises :
    apply_template_to_user [⟨1, "Basic Plan"⟩]
      [⟨"alice", "speed_limit", 100, "throttle", true, 1⟩] "alice" 1 =
      ([], Except.error (PyError.attributeError "rules")) := by
  decide

/-- **C7 (code bug).** The `disable` enforcement action never disables
the account: `disable_user` references the unbound name `db`, so its
body raises `NameError` before `crud.update_user` or
`xray.operations.remove_user` run; the local `except` swallows it into
an error log.  A sweep in which an exceeded `connection_limit` rule
dispatches `disable` therefore emits no account mutation whatsoever —
only the violation write, the disable-error log, the notification, the
warning log and the admin report. -/
theorem C7_disable_never_mutates_account :
    check_all_users (fun _ _ => false)
      [⟨"alice", "connection_limit", "email", true, "admin@example.com"⟩]
      [⟨"alice", "connection_limit", 5, "disable", true, 1⟩]
      [⟨"alice", Except.ok (some ⟨0, 6⟩)⟩] =
      [Event.violationWritten "alice" "connection_limit" 6 0 (some "disable"),
       Event.logDisableError "alice",
       Event.notifSent "email" "admin@example.com"
         (NotifKind.violationMsg (some "disable")),
       Event.logLimitExceeded "alice" "connection_limit" (some "disable") 6,
       Event.reportLimitExceeded "alice" "connection_limit" 6 0
         (some "disable")] ∧
    (check_all_users (fun _ _ => false)
      [⟨"alice", "connection_limit", "email", true, "admin@example.com"⟩]
      [⟨"alice", "connection_limit", 5, "disable", true, 1⟩]
      [⟨"alice", Except.ok (some ⟨0, 6⟩)⟩]).filter isAccountMutation = [] ∧
    disable_user_body "alice" = Except.error (PyError.nameError "db") := by
  refine ⟨?_, ?_, rfl⟩ <;>
    simp [check_all_users, monitor_check_user_limits, get_current_usage,
      check_user_limits, get_user_limits, checkLoop, evaluate_limit, dictInsert,
      monitor_check_loop, handle_limit_exceeded, disable_user, disable_user_body,
      send_violation_notification, get_limit_notifications, usageGet,
      isAccountMutation, List.filter]

set_option maxRecDepth 4000 in
/-- **C8 counterexample.** A stop issued while the full 300-second sleep
is pending: `monitor_stop` only flips the flag; one tick later the loop
is still sleeping, and it is still not stopped after the whole sleep has
elapsed (tick 300) nor at the following `while` test's tick — it reaches
`stopped` only at tick 302, not "within one tick". -/
theorem C8_counterexample :
    monitor_stop ⟨true, Phase.sleeping check_interval⟩ =
      ⟨false, Phase.sleeping 300⟩ ∧
    (monitor_run ⟨false, Phase.sleeping 300⟩ 1).phase ≠ Phase.stopped ∧
    (monitor_run ⟨false, Phase.sleeping 300⟩ 300).phase ≠ Phase.stopped ∧
    (monitor_run ⟨false, Phase.sleeping 300⟩ 301).phase ≠ Phase.stopped ∧
    (monitor_run ⟨false, Phase.sleeping 300⟩ 302).phase = Phase.stopped := by
  exact ⟨rfl, by decide, by decide, by decide, by decide⟩

/-- **C8 (amended).** `stop` sets a flag that is checked *only* at the
top of each loop iteration (`while self.running:`); the inter-sweep
`asyncio.sleep` is not interruptible and no code checks the flag during
it, so a stop issued during the sleep takes effect only after the whole
remaining sleep elapses: from `sleeping k` with the flag cleared the
loop reaches `stopped` at tick `k + 2` and at no tick before that. -/
theorem C8_stop_after_full_sleep (k j : Nat) (hj : j < k + 2) :
    monitor_step ⟨false, Phase.topCheck⟩ = ⟨false, Phase.stopped⟩ ∧
    (monitor_run ⟨false, Phase.sleeping k⟩ j).phase ≠ Phase.stopped ∧
    (monitor_run ⟨false, Phase.sleeping k⟩ (k + 2)).phase = Phase.stopped := by
  refine ⟨rfl, ?_, by rw [monitor_run_sleeping_stopped]⟩
  rcases Nat.lt_succ_iff_lt_or_eq.mp hj with hj' | rfl
  · have hle : j ≤ k := by omega
    rw [monitor_run_sleeping j k hle]
    simp
  · rw [monitor_run_sleeping_topCheck]
    simp

/-- Witness for C8 (amended) at a concrete input: a 5-second remaining
sleep, observed one tick after the stop. -/
theorem C8_witness :
    (1 < 5 + 2) ∧
    (monitor_step ⟨false, Phase.topCheck⟩ = ⟨false, Phase.stopped⟩ ∧
     (monitor_run ⟨false, Phase.sleeping 5⟩ 1).phase ≠ Phase.stopped ∧
     (monitor_run ⟨false, Phase.sleeping 5⟩ (5 + 2)).phase = Phase.stopped) :=
  ⟨by decide, C8_stop_after_full_sleep 5 1 (by decide)⟩
